import Mathlib

/-!
# AllProductsSection

A shallow embedding of `src/components/AllProductsSection/index.js`: the React class
component that reads the `jwt_token` cookie, issues one authenticated `GET` against the
catalog endpoint, reshapes the answer and renders one `ProductCard` per product.

The browser is made explicit: the cookie jar, the log of requests handed to `fetch` and
the component's `this.state` form a `World` that every method receives and returns.
The network is a parameter: it says how the promise returned by `fetch` settles.
-/

namespace AllProductsSection

/-! ## JavaScript values -/

/-- The values that `response.json()` can produce, plus `undefined`, which a property
read yields for an absent property. Numbers carry the parsed value; the component
never computes with them. -/
inductive JSValue where
  | undefined : JSValue
  | null : JSValue
  | bool (b : Bool) : JSValue
  | num (q : Rat) : JSValue
  | str (s : String) : JSValue
  | arr (items : List JSValue) : JSValue
  | obj (fields : List (String × JSValue)) : JSValue

/-- The errors an `async` function of this component can reject with. -/
inductive JSError where
  /-- The `TypeError` of the language: a property read on `undefined` or `null`,
  or a call of something that is not a function. -/
  | typeError : JSError
  /-- The promise returned by `fetch` was rejected (network or transport failure). -/
  | networkError : JSError
  /-- The promise returned by `response.json()` was rejected (the body is not JSON). -/
  | jsonError : JSError
  deriving DecidableEq

/-- The read `v.name` for a name that no built-in prototype defines, which holds of every
name this component reads (`products`, `title`, `brand`, `price`, `id`, `image_url`,
`rating`). On `undefined` and `null` the read throws; on an object it yields the own
property or `undefined`; on every other value the prototype chain is searched in vain
and the read yields `undefined`. -/
def getProp (v : JSValue) (name : String) : Except JSError JSValue :=
  match v with
  | .undefined => .error .typeError
  | .null => .error .typeError
  | .obj fields => .ok ((fields.lookup name).getD .undefined)
  | _ => .ok .undefined

/-- The call `xs.map(f)` of a callback that may throw: the elements are visited in
order and the first exception ends the call. -/
def arrayMap {α : Type} (f : JSValue → Except JSError α) : List JSValue → Except JSError (List α)
  | [] => .ok []
  | x :: xs =>
    match f x with
    | .error e => .error e
    | .ok y =>
      match arrayMap f xs with
      | .error e => .error e
      | .ok ys => .ok (y :: ys)

/-- The method call `v.map(f)`. Only an array has a callable `map`; on `undefined` and
`null` the read of `map` throws, and on every other value parsed from JSON `map` is
absent or not a function, so the call throws as well. -/
def callMap {α : Type} (v : JSValue) (f : JSValue → Except JSError α) :
    Except JSError (List α) :=
  match v with
  | .arr items => arrayMap f items
  | _ => .error .typeError

/-- The conversion of a template literal hole: `undefined` prints as `undefined`. -/
def templateString : Option String → String
  | some s => s
  | none => "undefined"

/-! ## Data model -/

/-- The object literal built by the callback at lines 31 to 38. -/
structure Product where
  title : JSValue
  brand : JSValue
  price : JSValue
  id : JSValue
  imageUrl : JSValue
  rating : JSValue

/-- The component state, `this.state`. -/
structure State where
  productsList : List Product

/-- The class field `state = {productsList: []}` (lines 8 to 10). -/
def initialState : State := { productsList := [] }

/-- The second argument of `fetch` (lines 20 to 25). -/
structure Options where
  method : String
  headers : List (String × String)

/-- A call `fetch(url, options)`. -/
structure Request where
  url : String
  options : Options

/-- How the promise returned by `response.json()` settles. -/
inductive JsonResult where
  | parsed (v : JSValue) : JsonResult
  | rejected : JsonResult

/-- The part of a `Response` that the component looks at. -/
structure Response where
  ok : Bool
  json : JsonResult

/-- How the promise returned by `fetch` settles. -/
inductive FetchResult where
  | response (r : Response) : FetchResult
  | rejected : FetchResult

/-- How the promise returned by an `async` method settles. -/
inductive Completion where
  | fulfilled : Completion
  | rejected (e : JSError) : Completion
  deriving DecidableEq

/-- Everything the component can read or change. -/
structure World where
  /-- The cookie jar of the document, as name and value pairs. -/
  cookies : List (String × String)
  /-- The calls of `fetch` made so far, oldest first. -/
  requests : List Request
  /-- The component state. -/
  state : State

/-- The call `Cookies.get(name)`: the value of the first cookie of that name, or
`undefined`. -/
def Cookies.get (jar : List (String × String)) (name : String) : Option String :=
  jar.lookup name

/-- The call `this.setState({productsList: updatedData})`: the named key is replaced. -/
def setState (w : World) (updatedData : List Product) : World :=
  { w with state := { productsList := updatedData } }

/-! ## The catalog fetcher -/

/-- The callback of `map` at lines 31 to 38. Each of the six reads throws when the
record is `undefined` or `null`. -/
def transform (i : JSValue) : Except JSError Product :=
  match getProp i "title" with
  | .error e => .error e
  | .ok title =>
  match getProp i "brand" with
  | .error e => .error e
  | .ok brand =>
  match getProp i "price" with
  | .error e => .error e
  | .ok price =>
  match getProp i "id" with
  | .error e => .error e
  | .ok id =>
  match getProp i "image_url" with
  | .error e => .error e
  | .ok image_url =>
  match getProp i "rating" with
  | .error e => .error e
  | .ok rating =>
    .ok { title := title, brand := brand, price := price, id := id,
          imageUrl := image_url, rating := rating }

/-- Lines 18 to 25: the request that `getProducts` hands to `fetch`. -/
def buildRequest (jar : List (String × String)) : Request :=
  let apiUrl := "https://apis.ccbp.in/products"
  let jwtToken := Cookies.get jar "jwt_token"
  let options : Options :=
    { method := "GET"
      headers := [("Authorization", "Bearer " ++ templateString jwtToken)] }
  { url := apiUrl, options := options }

/-- Line 31: `fetchedData.products.map(...)`. -/
def updatedData (fetchedData : JSValue) : Except JSError (List Product) :=
  match getProp fetchedData "products" with
  | .error e => .error e
  | .ok products => callMap products transform

/-- Lines 17 to 26: `getProducts` up to its first `await`. The request is built from
the cookie and handed to `fetch`. -/
def getProductsStart (w : World) : Request × World :=
  let request := buildRequest w.cookies
  (request, { w with requests := w.requests ++ [request] })

/-- Lines 26 to 42: `getProducts` from the moment the promise of `fetch` settles. -/
def getProductsResume (settled : FetchResult) (w : World) : Completion × World :=
  match settled with
  | .rejected => (.rejected .networkError, w)
  | .response response =>
    if response.ok = true then
      match response.json with
      | .rejected => (.rejected .jsonError, w)
      | .parsed fetchedData =>
        match updatedData fetchedData with
        | .error e => (.rejected e, w)
        | .ok data => (.fulfilled, setState w data)
    else (.fulfilled, w)

/-- The method `getProducts` (lines 17 to 42), run until its promise settles; `network`
says how the promise of each request settles. -/
def getProducts (network : Request → FetchResult) (w : World) : Completion × World :=
  let started := getProductsStart w
  getProductsResume (network started.1) started.2

/-! ## The list renderer -/

/-- The element tree that `render` returns. -/
inductive Element where
  /-- A text child. -/
  | text (s : String) : Element
  /-- A host element: its tag, its `className` attribute and its children. -/
  | host (tag : String) (className : Option String) (children : List Element) : Element
  /-- The element `<ProductCard productData={..} key={..} />` with the values of its two
  attributes. -/
  | productCard (productData : Product) (key : JSValue) : Element
  /-- The fragment `<>...</>`. -/
  | fragment (children : List Element) : Element

/-- The callback of `map` at lines 50 to 52. -/
def card (product : Product) : Element :=
  .productCard product product.id

/-- The method `renderProductsList` (lines 44 to 56). It reads `this.state`. -/
def renderProductsList (w : World) : Element × World :=
  let productsList := w.state.productsList
  (.host "div" none
    [ .host "h1" (some "products-list-heading") [.text "All Products"],
      .host "ul" (some "products-list") (productsList.map card) ], w)

/-- The method `render` (lines 58 to 60). -/
def render (w : World) : Element × World :=
  let inner := renderProductsList w
  (.fragment [inner.1], inner.2)

/-! ## The life of one component instance -/

/-- Where one instance of the component is in its life. -/
inductive Phase where
  /-- Constructed, `componentDidMount` not yet called. -/
  | constructed : Phase
  /-- The method `getProducts` is suspended at `await fetch(..)`. -/
  | awaiting (request : Request) : Phase
  /-- The promise of `getProducts` has settled. -/
  | settled (completion : Completion) : Phase

/-- One instance of the component in its browser. -/
structure Instance where
  phase : Phase
  world : World

/-- What can happen to an instance: it is mounted, or the promise of its pending
`fetch` settles. -/
inductive Event where
  | mount : Event
  | settle (outcome : FetchResult) : Event

/-- A newly constructed instance: its state is the class field of lines 8 to 10. -/
def Instance.fresh (jar : List (String × String)) (log : List Request) : Instance :=
  { phase := .constructed, world := { cookies := jar, requests := log, state := initialState } }

/-- The method `componentDidMount` (lines 12 to 15): it calls `this.getProducts()`, which
runs up to its first `await` and is resumed when the promise of `fetch` settles. -/
def componentDidMount (w : World) : Request × World :=
  getProductsStart w

/-- One step of an instance. React calls `componentDidMount` once, after construction;
the suspended `getProducts` is resumed once, with the outcome of its `fetch`. -/
def step (c : Instance) (e : Event) : Option Instance :=
  match c.phase, e with
  | .constructed, .mount =>
    let started := componentDidMount c.world
    some { phase := .awaiting started.1, world := started.2 }
  | .awaiting _, .settle outcome =>
    let resumed := getProductsResume outcome c.world
    some { phase := .settled resumed.1, world := resumed.2 }
  | _, _ => none

/-- The instance after a sequence of events, when each of them can happen in turn. -/
def run (c : Instance) : List Event → Option Instance
  | [] => some c
  | e :: es =>
    match step c e with
    | none => none
    | some next => run next es

/-- A fetch outcome is a success carrying `data`: the response is ok, its body parses to
a value whose `products` is an array, and `data` is that array, record by record, in
the shape of `Product`. -/
def FetchSuccess (outcome : FetchResult) (data : List Product) : Prop :=
  ∃ body ps, outcome = .response { ok := true, json := .parsed body } ∧
    getProp body "products" = .ok (.arr ps) ∧ arrayMap transform ps = .ok data

/-- A value is `undefined` or `null`: the two values on which a property read throws. -/
def JSValue.isNullish : JSValue → Bool
  | .undefined => true
  | .null => true
  | _ => false

/-- A value has an own property of the given name. -/
def JSValue.hasOwn (v : JSValue) (name : String) : Bool :=
  match v with
  | .obj fields => (fields.lookup name).isSome
  | _ => false

/-! ## Concrete data used in the examples -/

/-- The record of the scenario in the specification. -/
def shirtRecord : JSValue :=
  .obj [("id", .str "1"), ("title", .str "Shirt"), ("brand", .str "Acme"), ("price", .num 100),
        ("image_url", .str "http://x/1.png"), ("rating", .num 4)]

/-- The product of the scenario in the specification. -/
def shirtProduct : Product :=
  { id := .str "1", title := .str "Shirt", brand := .str "Acme", price := .num 100,
    imageUrl := .str "http://x/1.png", rating := .num 4 }

/-- A browser with a session cookie and a stale list in the component state. -/
def sampleWorld : World :=
  { cookies := [("theme", "dark"), ("jwt_token", "abc.def.ghi")]
    requests := []
    state := { productsList := [shirtProduct] } }

/-- A second, sparse record: every field but `id` is absent. -/
def sparseRecord : JSValue :=
  .obj [("id", .str "2")]

/-- The product built from the sparse record: an absent field reads as `undefined`. -/
def sparseProduct : Product :=
  { id := .str "2", title := .undefined, brand := .undefined, price := .undefined,
    imageUrl := .undefined, rating := .undefined }

/-- A body with two product records. -/
def catalogBody : JSValue :=
  .obj [("products", .arr [shirtRecord, sparseRecord])]

/-- A response with the given `ok` flag whose body parses to the given value. -/
def respond (ok : Bool) (body : JSValue) : FetchResult :=
  .response { ok := ok, json := .parsed body }

/-- An instance whose fetch has settled with the two products of `catalogBody`. -/
def loadedInstance : Instance :=
  { phase := .settled .fulfilled
    world := { cookies := [], requests := [buildRequest []],
               state := { productsList := [shirtProduct, sparseProduct] } } }

/-- A network that answers every request with the given outcome. -/
def always (outcome : FetchResult) : Request → FetchResult :=
  fun _ => outcome

/-! ## Auxiliary facts -/

/-- The two halves of `getProducts`, put together. -/
theorem getProducts_unfold (network : Request → FetchResult) (w : World) :
    getProducts network w =
      getProductsResume (network (buildRequest w.cookies))
        { w with requests := w.requests ++ [buildRequest w.cookies] } := rfl

/-- The callback completes on every value other than `undefined` and `null`. -/
theorem transform_ok_of_not_nullish (r : JSValue) (h : r.isNullish = false) :
    ∃ p, transform r = .ok p := by
  cases r <;> simp_all [transform, getProp, JSValue.isNullish]

/-- On an array without `undefined` and `null` the call of `map` completes, and its
result lines up with the array index by index. -/
theorem arrayMap_transform_ok (ps : List JSValue) (h : ∀ r ∈ ps, r.isNullish = false) :
    ∃ data, arrayMap transform ps = .ok data ∧ data.length = ps.length ∧
      ∀ i : Nat, (data[i]?).map Except.ok = (ps[i]?).map transform := by
  induction ps with
  | nil => exact ⟨[], rfl, rfl, fun i => by simp⟩
  | cons x xs ih =>
    obtain ⟨p, hp⟩ := transform_ok_of_not_nullish x (h x (by simp))
    obtain ⟨data, hd, hl, hi⟩ := ih (fun r hr => h r (by simp [hr]))
    refine ⟨p :: data, by simp [arrayMap, hp, hd], by simp [hl], ?_⟩
    intro i
    cases i with
    | zero => simp [hp]
    | succ j => simpa using hi j

/-- The hypothesis on the elements cannot be dropped: on `null`, which is no product
record, the first property read of the callback throws, so `map` throws and the state
is not updated. -/
theorem getProducts_null_element_throws :
    getProducts (always (respond true (.obj [("products", .arr [.null])]))) sampleWorld
      = (.rejected .typeError, { sampleWorld with requests := [buildRequest sampleWorld.cookies] }) :=
  rfl

/-- Resuming `getProducts` touches neither the cookie jar nor the log of requests. -/
theorem getProductsResume_frame (settled : FetchResult) (w : World) :
    (getProductsResume settled w).2.cookies = w.cookies ∧
    (getProductsResume settled w).2.requests = w.requests := by
  unfold getProductsResume
  split
  · exact ⟨rfl, rfl⟩
  · split
    · split
      · exact ⟨rfl, rfl⟩
      · split <;> exact ⟨rfl, rfl⟩
    · exact ⟨rfl, rfl⟩

/-- Whatever the network answers, one call of `getProducts` appends exactly the request
built from the cookie jar to the log, and leaves the cookie jar alone. -/
theorem getProducts_frame (network : Request → FetchResult) (w : World) :
    (getProducts network w).2.requests = w.requests ++ [buildRequest w.cookies] ∧
    (getProducts network w).2.cookies = w.cookies := by
  rw [getProducts_unfold]
  exact ⟨(getProductsResume_frame _ _).2, (getProductsResume_frame _ _).1⟩

/-! ## The catalog fetcher: what `getProducts` does -/

/-- C1, as amended. After a success response (`response.ok` is true) whose body holds a
`products` sequence `ps` none of whose elements is `null` or `undefined`, and whatever
the state was before, `getProducts` completes and `state.productsList` has exactly
`ps.length` elements, the one at index `i` being the transform of `ps[i]`: the list is
replaced wholesale, in the order received, nothing added, dropped or merged. -/
theorem getProducts_replaces_list (network : Request → FetchResult) (w : World)
    (body : JSValue) (ps : List JSValue)
    (hresp : network (buildRequest w.cookies) = .response { ok := true, json := .parsed body })
    (hps : getProp body "products" = .ok (.arr ps))
    (hrec : ∀ r ∈ ps, r.isNullish = false) :
    (getProducts network w).1 = .fulfilled ∧
    (getProducts network w).2.state.productsList.length = ps.length ∧
    ∀ i : Nat, ((getProducts network w).2.state.productsList[i]?).map Except.ok
      = (ps[i]?).map transform := by
  obtain ⟨data, hd, hl, hi⟩ := arrayMap_transform_ok ps hrec
  have hrun : getProducts network w
      = (.fulfilled, setState { w with requests := w.requests ++ [buildRequest w.cookies] } data) := by
    simp [getProducts_unfold, hresp, getProductsResume, updatedData, hps, callMap, hd]
  rw [hrun]
  exact ⟨rfl, hl, hi⟩

/-- C1, at a concrete input: a stale list of one product is replaced by the two products
of the response. -/
theorem getProducts_replaces_list_witness :
    (getProducts (always (respond true catalogBody)) sampleWorld).1 = .fulfilled ∧
    (getProducts (always (respond true catalogBody)) sampleWorld).2.state.productsList.length
      = [shirtRecord, sparseRecord].length ∧
    ∀ i : Nat,
      ((getProducts (always (respond true catalogBody)) sampleWorld).2.state.productsList[i]?).map
        Except.ok = ([shirtRecord, sparseRecord][i]?).map transform :=
  getProducts_replaces_list (always (respond true catalogBody)) sampleWorld catalogBody
    [shirtRecord, sparseRecord] rfl rfl
    (by intro r hr; simp at hr; rcases hr with h | h <;> subst h <;> rfl)

/-- C1, as first stated, fails. The body `{"products":[shirt, null]}` arrives with a
success status while the state holds a stale list of one product: the body has a
`products` sequence of two elements, yet `getProducts` is rejected with a `TypeError`
(the callback reads `title` of `null`), `setState` is not reached, and `productsList`
keeps its one stale element instead of two. So the statement without the condition on
the elements does not hold for every success response. -/
theorem getProducts_replaces_list_counterexample :
    always (respond true (.obj [("products", .arr [shirtRecord, .null])]))
        (buildRequest sampleWorld.cookies)
      = .response { ok := true, json := .parsed (.obj [("products", .arr [shirtRecord, .null])]) } ∧
    getProp (.obj [("products", .arr [shirtRecord, .null])]) "products"
      = .ok (.arr [shirtRecord, .null]) ∧
    (getProducts (always (respond true (.obj [("products", .arr [shirtRecord, .null])])))
      sampleWorld).1 = .rejected .typeError ∧
    (getProducts (always (respond true (.obj [("products", .arr [shirtRecord, .null])])))
      sampleWorld).2.state.productsList.length = 1 ∧
    [shirtRecord, JSValue.null].length = 2 ∧
    ¬ (∀ (network : Request → FetchResult) (w : World) (body : JSValue) (ps : List JSValue),
        network (buildRequest w.cookies) = .response { ok := true, json := .parsed body } →
        getProp body "products" = .ok (.arr ps) →
        (getProducts network w).1 = .fulfilled ∧
        (getProducts network w).2.state.productsList.length = ps.length ∧
        ∀ i : Nat, ((getProducts network w).2.state.productsList[i]?).map Except.ok
          = (ps[i]?).map transform) := by
  refine ⟨rfl, rfl, rfl, rfl, rfl, fun hall => ?_⟩
  have hlen := (hall (always (respond true (.obj [("products", .arr [shirtRecord, .null])])))
    sampleWorld (.obj [("products", .arr [shirtRecord, .null])]) [shirtRecord, .null] rfl rfl).2.1
  have hone : (getProducts (always (respond true (.obj [("products", .arr [shirtRecord, .null])])))
      sampleWorld).2.state.productsList.length = 1 := rfl
  rw [hone] at hlen
  exact absurd hlen (by decide)

/-- C2. The callback maps every source record to a product whose `imageUrl` is the
record's `image_url` and whose `title`, `brand`, `price`, `id` and `rating` are the
record's own; the record of the scenario maps to the product of the scenario. -/
theorem transform_renames_image_url (fields : List (String × JSValue)) :
    ∃ p : Product, transform (.obj fields) = .ok p ∧
      getProp (.obj fields) "image_url" = .ok p.imageUrl ∧
      getProp (.obj fields) "title" = .ok p.title ∧
      getProp (.obj fields) "brand" = .ok p.brand ∧
      getProp (.obj fields) "price" = .ok p.price ∧
      getProp (.obj fields) "id" = .ok p.id ∧
      getProp (.obj fields) "rating" = .ok p.rating ∧
      transform shirtRecord = .ok shirtProduct :=
  ⟨_, rfl, rfl, rfl, rfl, rfl, rfl, rfl, rfl⟩

/-- C3. After a response that is not in the success range (`response.ok` is not true),
whatever its body, `getProducts` completes without a state update: the state after
equals the state before, so from the initial state `productsList` stays empty. -/
theorem getProducts_not_ok_keeps_state (network : Request → FetchResult) (w : World)
    (response : Response)
    (hresp : network (buildRequest w.cookies) = .response response)
    (hok : response.ok = false) :
    (getProducts network w).1 = .fulfilled ∧
    (getProducts network w).2.state = w.state ∧
    (getProducts network { w with state := initialState }).2.state.productsList = [] := by
  have hrun : ∀ st : State, getProducts network { w with state := st }
      = (.fulfilled, { w with requests := w.requests ++ [buildRequest w.cookies], state := st }) := by
    intro st
    simp [getProducts_unfold, hresp, getProductsResume, hok]
  refine ⟨?_, ?_, ?_⟩
  · exact congrArg Prod.fst (hrun w.state)
  · exact congrArg (fun r => r.2.state) (hrun w.state)
  · exact congrArg (fun r => r.2.state.productsList) (hrun initialState)

/-- C3, at a concrete input: a response that is not ok, with a well-formed body. -/
theorem getProducts_not_ok_keeps_state_witness :
    (getProducts (always (respond false catalogBody)) sampleWorld).1 = .fulfilled ∧
    (getProducts (always (respond false catalogBody)) sampleWorld).2.state = sampleWorld.state ∧
    (getProducts (always (respond false catalogBody))
      { sampleWorld with state := initialState }).2.state.productsList = [] :=
  getProducts_not_ok_keeps_state (always (respond false catalogBody)) sampleWorld
    { ok := false, json := .parsed catalogBody } rfl rfl

/-- C4. After a success response whose parsed body has no `products` field,
`getProducts` does not complete: the mapping step throws a `TypeError`, nothing inside
`getProducts` catches it, so its promise is rejected with it, and `setState` is never
reached: the component state is the one before the call. -/
theorem getProducts_missing_products_throws (network : Request → FetchResult) (w : World)
    (body : JSValue)
    (hresp : network (buildRequest w.cookies) = .response { ok := true, json := .parsed body })
    (hmissing : body.hasOwn "products" = false) :
    (getProducts network w).1 = .rejected .typeError ∧
    (getProducts network w).2.state = w.state := by
  have hupd : updatedData body = .error .typeError := by
    cases body with
    | obj fields =>
      have hnone : fields.lookup "products" = none := by
        simpa [JSValue.hasOwn] using hmissing
      simp [updatedData, getProp, hnone, callMap]
    | _ => rfl
  have hrun : getProducts network w
      = (.rejected .typeError, { w with requests := w.requests ++ [buildRequest w.cookies] }) := by
    simp [getProducts_unfold, hresp, getProductsResume, hupd]
  rw [hrun]
  exact ⟨rfl, rfl⟩

/-- C4, at a concrete input: the body is an object with a misspelt field. -/
theorem getProducts_missing_products_throws_witness :
    (getProducts (always (respond true (.obj [("product", .arr [shirtRecord])]))) sampleWorld).1
      = .rejected .typeError ∧
    (getProducts (always (respond true (.obj [("product", .arr [shirtRecord])])))
      sampleWorld).2.state = sampleWorld.state :=
  getProducts_missing_products_throws (always (respond true (.obj [("product", .arr [shirtRecord])])))
    sampleWorld (.obj [("product", .arr [shirtRecord])]) rfl rfl

/-- C5. When the `jwt_token` cookie holds the token `t`, `getProducts` hands `fetch`
one request: its URL is `https://apis.ccbp.in/products`, its method is `GET`, and its
only header is `Authorization` with the value `Bearer ` followed by `t`. The cookie jar
after the call is the cookie jar before it. -/
theorem getProducts_request (network : Request → FetchResult) (w : World) (t : String)
    (htoken : Cookies.get w.cookies "jwt_token" = some t) :
    (getProducts network w).2.requests = w.requests ++
      [{ url := "https://apis.ccbp.in/products",
         options := { method := "GET", headers := [("Authorization", "Bearer " ++ t)] } }] ∧
    (getProducts network w).2.cookies = w.cookies := by
  have hreq : buildRequest w.cookies =
      { url := "https://apis.ccbp.in/products",
        options := { method := "GET", headers := [("Authorization", "Bearer " ++ t)] } } := by
    simp [buildRequest, htoken, templateString]
  rw [← hreq]
  exact getProducts_frame network w

/-- C5, at a concrete input: the jar holds the token `abc.def.ghi` after another cookie. -/
theorem getProducts_request_witness :
    (getProducts (always .rejected) sampleWorld).2.requests = sampleWorld.requests ++
      [{ url := "https://apis.ccbp.in/products",
         options := { method := "GET",
                      headers := [("Authorization", "Bearer " ++ "abc.def.ghi")] } }] ∧
    (getProducts (always .rejected) sampleWorld).2.cookies = sampleWorld.cookies :=
  getProducts_request (always .rejected) sampleWorld "abc.def.ghi" (by decide)

/-- C10. When the `jwt_token` cookie is absent, `getProducts` does not skip the call: it
hands `fetch` the request to the catalog endpoint with the `Authorization` header
`Bearer undefined`. And for every cookie jar, with or without the cookie, one call of
`getProducts` adds exactly one request to the log. -/
theorem getProducts_absent_cookie (network : Request → FetchResult) (w : World)
    (habsent : Cookies.get w.cookies "jwt_token" = none) :
    (getProducts network w).2.requests = w.requests ++
      [{ url := "https://apis.ccbp.in/products",
         options := { method := "GET", headers := [("Authorization", "Bearer undefined")] } }] ∧
    ∀ (anyNetwork : Request → FetchResult) (v : World),
      (getProducts anyNetwork v).2.requests.length = v.requests.length + 1 := by
  have hreq : buildRequest w.cookies =
      { url := "https://apis.ccbp.in/products",
        options := { method := "GET", headers := [("Authorization", "Bearer undefined")] } } := by
    simp [buildRequest, habsent, templateString]
  refine ⟨?_, fun anyNetwork v => ?_⟩
  · rw [← hreq]
    exact (getProducts_frame network w).1
  · rw [(getProducts_frame anyNetwork v).1]
    simp

/-- C10, at a concrete input: the jar holds another cookie only. -/
theorem getProducts_absent_cookie_witness :
    (getProducts (always (respond true catalogBody))
        { sampleWorld with cookies := [("theme", "dark")] }).2.requests
      = sampleWorld.requests ++
      [{ url := "https://apis.ccbp.in/products",
         options := { method := "GET", headers := [("Authorization", "Bearer undefined")] } }] ∧
    ∀ (anyNetwork : Request → FetchResult) (v : World),
      (getProducts anyNetwork v).2.requests.length = v.requests.length + 1 :=
  getProducts_absent_cookie (always (respond true catalogBody))
    { sampleWorld with cookies := [("theme", "dark")] } (by decide)

/-! ## The list renderer: what `render` returns -/

/-- C6. For every `productsList`, `render` returns the heading `All Products` followed
by a list of exactly `productsList.length` cards; the card at index `i` receives
`productsList[i]` as its `productData` and `productsList[i].id` as its key. -/
theorem render_cards (w : World) :
    ∃ cards : List Element,
      (render w).1 = .fragment [.host "div" none
        [ .host "h1" (some "products-list-heading") [.text "All Products"],
          .host "ul" (some "products-list") cards ]] ∧
      cards.length = w.state.productsList.length ∧
      ∀ i : Nat, cards[i]? = (w.state.productsList[i]?).map (fun p => Element.productCard p p.id) :=
  ⟨w.state.productsList.map card, rfl, by simp, fun i => by rw [List.getElem?_map]; rfl⟩

/-- C7. After a success response whose `products` sequence is empty, the rendered output
is the heading and a list without cards, with no message in place of the cards: the very
output that the initial state renders to. -/
theorem render_after_empty_catalog (network : Request → FetchResult) (w : World)
    (body : JSValue)
    (hresp : network (buildRequest w.cookies) = .response { ok := true, json := .parsed body })
    (hps : getProp body "products" = .ok (.arr [])) :
    (render (getProducts network w).2).1 = .fragment [.host "div" none
        [ .host "h1" (some "products-list-heading") [.text "All Products"],
          .host "ul" (some "products-list") [] ]] ∧
    (render (getProducts network w).2).1 = (render { w with state := initialState }).1 := by
  have hrun : getProducts network w
      = (.fulfilled, setState { w with requests := w.requests ++ [buildRequest w.cookies] } []) := by
    simp [getProducts_unfold, hresp, getProductsResume, updatedData, hps, callMap, arrayMap]
  rw [hrun]
  exact ⟨rfl, rfl⟩

/-- C7, at a concrete input: the stale list of one product gives way to no card. -/
theorem render_after_empty_catalog_witness :
    (render (getProducts (always (respond true (.obj [("products", .arr [])])))
        sampleWorld).2).1 = .fragment [.host "div" none
        [ .host "h1" (some "products-list-heading") [.text "All Products"],
          .host "ul" (some "products-list") [] ]] ∧
    (render (getProducts (always (respond true (.obj [("products", .arr [])])))
        sampleWorld).2).1 = (render { sampleWorld with state := initialState }).1 :=
  render_after_empty_catalog (always (respond true (.obj [("products", .arr [])])))
    sampleWorld (.obj [("products", .arr [])]) rfl rfl

/-- C8. Rendering is idempotent and free of side effects: a second `render` returns the
same tree as the first, any number of `render` calls leaves the world (and with it the
component state) as it was, and the tree is a function of `productsList` alone. -/
theorem render_idempotent (w : World) :
    (render (render w).2).1 = (render w).1 ∧
    (∀ n : Nat, Nat.iterate (fun v => (render v).2) n w = w) ∧
    ∃ view : List Product → Element, ∀ v : World, (render v).1 = view v.state.productsList := by
  refine ⟨rfl, fun n => ?_, ⟨fun l => (render { cookies := [], requests := [], state := { productsList := l } }).1, fun v => rfl⟩⟩
  induction n with
  | zero => rfl
  | succ k ih => rw [Function.iterate_succ_apply]; exact ih

/-! ## The life of an instance: which states it can be in -/

/-- Resuming `getProducts` either leaves the world as it is, or the fetch outcome is a
success and the world differs by one `setState` of the data of that success. -/
theorem getProductsResume_cases (settled : FetchResult) (w : World) :
    (getProductsResume settled w).2 = w ∨
    ∃ data, FetchSuccess settled data ∧ getProductsResume settled w = (.fulfilled, setState w data) := by
  cases settled with
  | rejected => exact Or.inl rfl
  | response response =>
    obtain ⟨ok, json⟩ := response
    cases ok with
    | false => exact Or.inl rfl
    | true =>
      cases json with
      | rejected => exact Or.inl rfl
      | parsed body =>
        cases hbody : getProp body "products" with
        | error e => left; simp [getProductsResume, updatedData, hbody]
        | ok products =>
          cases products with
          | arr ps =>
            cases hdata : arrayMap transform ps with
            | error e => left; simp [getProductsResume, updatedData, hbody, callMap, hdata]
            | ok data =>
              right
              refine ⟨data, ⟨body, ps, rfl, hbody, hdata⟩, ?_⟩
              simp [getProductsResume, updatedData, hbody, callMap, hdata]
          | _ => left; simp [getProductsResume, updatedData, hbody, callMap]

/-- A run of a newly constructed instance is empty, a mount, or a mount followed by the
settling of its request; the lemma names the instance reached in each case. -/
theorem run_fresh_cases (jar : List (String × String)) (log : List Request)
    (events : List Event) (c : Instance)
    (h : run (Instance.fresh jar log) events = some c) :
    (events = [] ∧ c = Instance.fresh jar log) ∨
    (events = [.mount] ∧
      c = { phase := .awaiting (buildRequest jar),
            world := (getProductsStart (Instance.fresh jar log).world).2 }) ∨
    (∃ outcome, events = [.mount, .settle outcome] ∧
      c = { phase := .settled
              (getProductsResume outcome (getProductsStart (Instance.fresh jar log).world).2).1,
            world :=
              (getProductsResume outcome (getProductsStart (Instance.fresh jar log).world).2).2 }) := by
  match events, h with
  | [], h => left; simp [run] at h; exact ⟨rfl, h.symm⟩
  | [.mount], h =>
    right; left
    simp [run, step, Instance.fresh, componentDidMount] at h
    exact ⟨rfl, h.symm⟩
  | [.mount, .settle outcome], h =>
    right; right
    simp [run, step, Instance.fresh, componentDidMount] at h
    exact ⟨outcome, rfl, h.symm⟩
  | .settle _ :: _, h => simp [run, step, Instance.fresh] at h
  | .mount :: .mount :: _, h => simp [run, step, Instance.fresh, componentDidMount] at h
  | .mount :: .settle _ :: _ :: _, h => simp [run, step, Instance.fresh, componentDidMount] at h

/-- C9. Call an instance Empty when its state is the initial one (`productsList = []`) and
Loaded when it was reached by a successful fetch and holds the data of that fetch. Along
every run of a newly constructed instance (a mount, then the outcome of the fetch applied
by `getProducts`): the instance is Empty or Loaded, there is no third state; a step
changes `productsList` only when it applies a successful fetch, and it does so from the
Empty state; and once the fetch has settled no further step exists, so a Loaded instance
never returns to Empty. -/
theorem lifecycle_empty_or_loaded (jar : List (String × String)) (log : List Request)
    (events : List Event) (c : Instance)
    (h : run (Instance.fresh jar log) events = some c) :
    (c.world.state = initialState ∨
      ∃ outcome data, events = [.mount, .settle outcome] ∧ FetchSuccess outcome data ∧
        c.world.state.productsList = data) ∧
    (∀ e next, step c e = some next →
      next.world.state.productsList ≠ c.world.state.productsList →
      ∃ outcome, e = .settle outcome ∧ FetchSuccess outcome next.world.state.productsList ∧
        c.world.state = initialState) ∧
    (∀ outcome, events.getLast? = some (.settle outcome) → ∀ e, step c e = none) := by
  rcases run_fresh_cases jar log events c h with ⟨hev, hc⟩ | ⟨hev, hc⟩ | ⟨outcome, hev, hc⟩
  · subst hev hc
    refine ⟨Or.inl rfl, ?_, ?_⟩
    · intro e next hstep hne
      cases e with
      | mount =>
        simp [step, Instance.fresh, componentDidMount] at hstep
        subst hstep
        exact absurd rfl hne
      | settle outcome => simp [step, Instance.fresh] at hstep
    · intro outcome hlast
      simp at hlast
  · subst hev hc
    refine ⟨Or.inl rfl, ?_, ?_⟩
    · intro e next hstep hne
      cases e with
      | mount => simp [step] at hstep
      | settle outcome =>
        simp only [step, Option.some.injEq] at hstep
        subst hstep
        refine ⟨outcome, rfl, ?_, rfl⟩
        rcases getProductsResume_cases outcome
            (getProductsStart (Instance.fresh jar log).world).2 with hsame | ⟨data, hsucc, hrun⟩
        · exact absurd (congrArg (fun v => v.state.productsList) hsame) hne
        · simpa [hrun, setState] using hsucc
    · intro outcome hlast
      simp at hlast
  · subst hev hc
    refine ⟨?_, ?_, ?_⟩
    · rcases getProductsResume_cases outcome
          (getProductsStart (Instance.fresh jar log).world).2 with hsame | ⟨data, hsucc, hrun⟩
      · left
        exact congrArg (fun v => v.state) hsame
      · right
        exact ⟨outcome, data, rfl, hsucc, by simp [hrun, setState]⟩
    · intro e next hstep
      cases e <;> simp [step] at hstep
    · intro _ _ e
      cases e <;> simp [step]

/-- C9, at a concrete input: a mount, then a success with two products. -/
theorem lifecycle_empty_or_loaded_witness :
    (loadedInstance.world.state = initialState ∨
      ∃ outcome data,
        [Event.mount, .settle (respond true catalogBody)] = [.mount, .settle outcome] ∧
        FetchSuccess outcome data ∧ loadedInstance.world.state.productsList = data) ∧
    (∀ e next, step loadedInstance e = some next →
      next.world.state.productsList ≠ loadedInstance.world.state.productsList →
      ∃ outcome, e = .settle outcome ∧ FetchSuccess outcome next.world.state.productsList ∧
        loadedInstance.world.state = initialState) ∧
    (∀ outcome,
      [Event.mount, .settle (respond true catalogBody)].getLast? = some (.settle outcome) →
      ∀ e, step loadedInstance e = none) :=
  lifecycle_empty_or_loaded [] [] [.mount, .settle (respond true catalogBody)] loadedInstance rfl

end AllProductsSection
